import Mathlib

/-!
Verification of the package_tracker tracking-aggregator client (src/app.py)
against its natural-language specification.

The Python source is shallowly embedded: pure helpers become Lean functions,
the cache file and the header dictionaries become explicit state, fallible
code returns `Except`.  Python `None`-able values are `Option`s; Python
string truthiness (`not s` is true for `None` and `""`) is modelled
explicitly.  Timestamps ("%Y-%m-%d %H:%M:%S %Z" strings) are modelled by
their parsed value in seconds, and `datetime.timedelta(hours=h)` by
`h * 3600` seconds.
-/

/-! ## Python JSON values (for the generic `JsonFileHandler`)

`PyObj` models Python objects fed to `json.dump`: JSON-representable
constructors plus `pySet`, a representative non-JSON-serializable value
(`json.dump` raises `TypeError` on it).  The on-disk file is modelled at
the granularity `json.load` observes: absent, empty, unparsable bytes, or
a well-formed serialization of a document. -/

inductive PyObj where
  | pyNone : PyObj
  | pyBool : Bool → PyObj
  | pyInt : Int → PyObj
  | pyStr : String → PyObj
  | pyList : List PyObj → PyObj
  | pyDict : List (String × PyObj) → PyObj
  | pySet : List PyObj → PyObj

mutual

/-- Whether `json.dump` succeeds on the object (sets are not serializable). -/
def serializableB : PyObj → Bool
  | .pyNone => true
  | .pyBool _ => true
  | .pyInt _ => true
  | .pyStr _ => true
  | .pyList xs => serializableListB xs
  | .pyDict kvs => serializableKVB kvs
  | .pySet _ => false

def serializableListB : List PyObj → Bool
  | [] => true
  | x :: xs => serializableB x && serializableListB xs

def serializableKVB : List (String × PyObj) → Bool
  | [] => true
  | kv :: kvs => serializableB kv.2 && serializableKVB kvs

end

/-- The on-disk cache file, as observed by `os.path.exists`,
`os.path.getsize` and `json.load`. -/
inductive FileContent where
  | absent : FileContent
  | empty : FileContent
  | invalid : FileContent
  | stored : PyObj → FileContent

/-- The temporary `<path>.tmp` file `write` serializes into. -/
inductive TempState where
  | clean : TempState
  | leftover : TempState
deriving DecidableEq, Repr

/-- State touched by one `JsonFileHandler`: the target file, the
`cachetools.TTLCache` overlay entry for its path (at most one entry,
`maxsize=1`), and the temporary file. -/
structure CacheFileState where
  file : FileContent
  overlay : Option PyObj
  temp : TempState

inductive ReadError where
  | jsonDecodeError : ReadError
deriving DecidableEq, Repr

namespace JsonFileHandler

/-- Model of `initialize`: if the file is absent or empty, dump the default
document into it (the handler instance's default, `{"TRACKING": {}}`, is
always serializable).  A nonempty — even unparsable — file is left alone.
The overlay is not touched. -/
def initializeFile (defaultData : PyObj) (st : CacheFileState) : CacheFileState :=
  match st.file with
  | .absent => { st with file := .stored defaultData }
  | .empty => { st with file := .stored defaultData }
  | _ => st

/-- Model of `read`: overlay hit returns the overlay entry; a nonempty parsable
file is parsed and cached; absent/empty file is initialized and re-read.
An unparsable nonempty file makes `json.load` raise `JSONDecodeError`,
which the `except FileNotFoundError` clause does not catch, so the error
propagates to the caller. -/
def read (defaultData : PyObj) (st : CacheFileState) :
    Except ReadError (PyObj × CacheFileState) :=
  match st.overlay with
  | some d => .ok (d, st)
  | none =>
    match st.file with
    | .stored d => .ok (d, { st with overlay := some d })
    | .invalid => .error .jsonDecodeError
    | _ =>
      -- absent or empty: `self.initialize()` then `return self.read()`
      let st1 := initializeFile defaultData st
      match st1.file with
      | .stored d => .ok (d, { st1 with overlay := some d })
      | .invalid => .error .jsonDecodeError
      | _ => .error .jsonDecodeError

/-- Model of `write`: serialize into the temp file; on `TypeError`/`ValueError`
log and return (the partially written temp file remains, the target and
the overlay are untouched); otherwise `os.replace` the target and update
the overlay. -/
def write (st : CacheFileState) (data : PyObj) : CacheFileState :=
  if serializableB data then
    { file := .stored data, overlay := some data, temp := .clean }
  else
    { st with temp := .leftover }

end JsonFileHandler

/-- The `cache_handler` instance's default document `{"TRACKING": {}}`. -/
def defaultCacheData : PyObj := .pyDict [("TRACKING", .pyDict [])]

/-- Model of `read_cache_json()` (i.e. `cache_handler.read()`). -/
def read_cache_json (st : CacheFileState) : Except ReadError (PyObj × CacheFileState) :=
  JsonFileHandler.read defaultCacheData st

/-- Model of `write_cache_json(data)` (i.e. `cache_handler.write(data)`). -/
def write_cache_json (st : CacheFileState) (data : PyObj) : CacheFileState :=
  JsonFileHandler.write st data

/-- A read that re-parses the file from disk: the TTL overlay entry has
expired (is absent). -/
def bypassOverlay (st : CacheFileState) : CacheFileState :=
  { st with overlay := none }

/-! ## C2 -/

/-- C2 counterexample: with an unparsable (corrupt) nonempty cache file
and a cold overlay, `read()` does not self-heal: it raises the JSON
parse error to the caller instead of returning a document. -/
theorem C2_corrupt_read_raises_counterexample :
    read_cache_json ⟨.invalid, none, .clean⟩ = .error .jsonDecodeError := by
  rfl

/-- C2 (amended): on an absent or empty cache file, `read()` self-heals:
it reinitializes the file to `{"TRACKING": {}}`, re-reads, and returns
that default document.  On an unparsable nonempty file it instead raises
the JSON parse error to the caller (only `FileNotFoundError` is caught). -/
theorem C2_read_self_heal_absent_empty_only (st : CacheFileState)
    (hov : st.overlay = none) :
    ((st.file = .absent ∨ st.file = .empty) →
      read_cache_json st =
        .ok (defaultCacheData, ⟨.stored defaultCacheData, some defaultCacheData, st.temp⟩)) ∧
    (st.file = .invalid → read_cache_json st = .error .jsonDecodeError) := by
  constructor
  · intro hfile
    rcases hfile with h | h <;>
      simp [read_cache_json, JsonFileHandler.read, JsonFileHandler.initializeFile, hov, h]
  · intro hfile
    simp [read_cache_json, JsonFileHandler.read, hov, hfile]

theorem C2_read_self_heal_absent_empty_only_witness :
    (⟨.absent, none, .clean⟩ : CacheFileState).overlay = none ∧
    read_cache_json ⟨.absent, none, .clean⟩ =
      .ok (defaultCacheData, ⟨.stored defaultCacheData, some defaultCacheData, .clean⟩) :=
  ⟨rfl, (C2_read_self_heal_absent_empty_only ⟨.absent, none, .clean⟩ rfl).1 (Or.inl rfl)⟩

/-! ## C4 -/

/-- C4: if serializing the document fails (non-JSON-serializable data),
`write` aborts before `os.replace`: the existing cache file's content and
the overlay are unchanged, and no error is raised (`write` is a total
state transformer; the failure is only logged). -/
theorem C4_write_serialize_failure_aborts (st : CacheFileState) (d : PyObj)
    (h : serializableB d = false) :
    (write_cache_json st d).file = st.file ∧
    (write_cache_json st d).overlay = st.overlay := by
  constructor <;> simp [write_cache_json, JsonFileHandler.write, h]

theorem C4_write_serialize_failure_aborts_witness :
    serializableB (.pySet []) = false ∧
    ((write_cache_json ⟨.stored defaultCacheData, none, .clean⟩ (.pySet [])).file
        = FileContent.stored defaultCacheData ∧
      (write_cache_json ⟨.stored defaultCacheData, none, .clean⟩ (.pySet [])).overlay = none) :=
  ⟨rfl, C4_write_serialize_failure_aborts ⟨.stored defaultCacheData, none, .clean⟩ (.pySet []) rfl⟩

/-! ## C6 -/

/-- C6: for every JSON document `d` (serializable object), `write d`
immediately followed by a `read` that bypasses the in-memory TTL overlay
(re-parses the file from disk) returns a document deep-equal to `d`. -/
theorem C6_write_read_roundtrip (st : CacheFileState) (d : PyObj)
    (h : serializableB d = true) :
    read_cache_json (bypassOverlay (write_cache_json st d)) =
      .ok (d, ⟨.stored d, some d, .clean⟩) := by
  simp [read_cache_json, write_cache_json, JsonFileHandler.write, bypassOverlay,
    JsonFileHandler.read, h]

theorem C6_write_read_roundtrip_witness :
    serializableB (.pyDict [("TRACKING", .pyDict [("last_event_id", .pyStr "x")])]) = true ∧
    read_cache_json (bypassOverlay (write_cache_json ⟨.absent, none, .clean⟩
        (.pyDict [("TRACKING", .pyDict [("last_event_id", .pyStr "x")])]))) =
      .ok (.pyDict [("TRACKING", .pyDict [("last_event_id", .pyStr "x")])],
        ⟨.stored (.pyDict [("TRACKING", .pyDict [("last_event_id", .pyStr "x")])]),
          some (.pyDict [("TRACKING", .pyDict [("last_event_id", .pyStr "x")])]), .clean⟩) :=
  ⟨rfl, C6_write_read_roundtrip ⟨.absent, none, .clean⟩ _ rfl⟩

/-! ## Proxy chain transport

Python strings are embedded as `List Char`; `str.split(",")`,
`str.strip()` and `str.startswith` are modelled on that representation
with Python semantics (`"".split(",") == [""]`, empty segments kept). -/

/-- Model of `url.split(",")`. -/
def pySplitComma : List Char → List (List Char)
  | [] => [[]]
  | c :: rest =>
    if c = ',' then [] :: pySplitComma rest
    else
      match pySplitComma rest with
      | [] => [[c]]
      | g :: gs => (c :: g) :: gs

/-- Model of `s.strip()`. -/
def pyStrip (s : List Char) : List Char :=
  ((s.dropWhile Char.isWhitespace).reverse.dropWhile Char.isWhitespace).reverse

/-- Model of `s.startswith(p)` (first argument is the pattern). -/
def pyStartswith : List Char → List Char → Bool
  | [], _ => true
  | _ :: _, [] => false
  | p :: ps, c :: cs => p == c && pyStartswith ps cs

/-- A `python_socks` proxy descriptor as built by `Proxy.from_url`:
the (possibly rewritten) URL and the remote-DNS flag. -/
structure PyProxy where
  url : List Char
  rdns : Bool
deriving DecidableEq, Repr

/-- Model of `proxy_from_url`: a `socks4h`/`socks5h` scheme is rewritten to
`socks4`/`socks5` (first occurrence — under the `startswith` guard that
is the prefix) and requests remote DNS; otherwise the URL is passed to
`Proxy.from_url` unchanged. -/
def proxy_from_url (u : List Char) : PyProxy :=
  if pyStartswith "socks4h".toList u then ⟨"socks4".toList ++ u.drop 7, true⟩
  else if pyStartswith "socks5h".toList u then ⟨"socks5".toList ++ u.drop 7, true⟩
  else ⟨u, false⟩

/-- Model of `python_socks.sync.ProxyChain(list_of_proxies)`: an ordered multi-hop
chain. -/
structure PyProxyChain where
  proxies : List PyProxy
deriving DecidableEq, Repr

/-- Model of `parse_proxychain_url`: split the descriptor on commas, strip each
segment, drop empty segments, parse each remaining segment, and build the
ordered chain. -/
def parse_proxychain_url (url : List Char) : PyProxyChain :=
  ⟨(((pySplitComma url).map pyStrip).filter (fun s => s ≠ [])).map proxy_from_url⟩

/-- What `patched_get_connection` uses for the request: the unpatched
default single-hop behavior (`real_get_connection`), or a pooled
multi-hop chain manager for the parsed descriptor. -/
inductive ConnectionChoice where
  | default : ConnectionChoice
  | chain : PyProxyChain → ConnectionChoice
deriving DecidableEq, Repr

/-- Model of `patched_get_connection`, restricted to its decision: `proxy` is the
descriptor `select_proxy` picked (`none` when no proxy applies).  Only a
truthy descriptor containing a comma goes to the chain manager; everything
else falls through to `real_get_connection` unmodified. -/
def patched_get_connection (proxy : Option (List Char)) : ConnectionChoice :=
  match proxy with
  | none => .default
  | some p =>
    if p = [] then .default
    else if ',' ∈ p then .chain (parse_proxychain_url p)
    else .default

/-- The comma-joined descriptor built from the given segments. -/
def joinComma : List (List Char) → List Char
  | [] => []
  | [s] => s
  | s :: rest => s ++ ',' :: joinComma rest

theorem pySplitComma_ne_nil (l : List Char) : pySplitComma l ≠ [] := by
  induction l with
  | nil => simp [pySplitComma]
  | cons c rest ih =>
    by_cases h : c = ','
    · simp [pySplitComma, h]
    · simp only [pySplitComma, if_neg h]
      cases hr : pySplitComma rest with
      | nil => simp
      | cons g gs => simp

theorem pySplitComma_no_comma (s : List Char) (h : ',' ∉ s) :
    pySplitComma s = [s] := by
  induction s with
  | nil => rfl
  | cons c rest ih =>
    have hc : c ≠ ',' := fun hc => h (by simp [hc])
    have hrest : ',' ∉ rest := fun hm => h (by simp [hm])
    simp only [pySplitComma, if_neg hc, ih hrest]

theorem pySplitComma_append (s t : List Char) (h : ',' ∉ s) :
    pySplitComma (s ++ ',' :: t) = s :: pySplitComma t := by
  induction s with
  | nil => simp [pySplitComma]
  | cons c rest ih =>
    have hc : c ≠ ',' := fun hc => h (by simp [hc])
    have hrest : ',' ∉ rest := fun hm => h (by simp [hm])
    simp only [List.cons_append, pySplitComma, if_neg hc, List.append_eq, ih hrest]

/-- C7: a comma-joined descriptor decodes to an ordered multi-hop chain
whose hops are the parses of the comma-separated segments, in the same
order; and a descriptor without a comma is handed to the default
single-hop connection behavior unmodified. -/
theorem C7_proxychain_order_and_fallthrough (segs : List (List Char))
    (hne : segs ≠ [])
    (hseg : ∀ s ∈ segs, ',' ∉ s ∧ pyStrip s = s ∧ s ≠ []) :
    (parse_proxychain_url (joinComma segs)).proxies = segs.map proxy_from_url ∧
    ∀ p : Option (List Char), (∀ l, p = some l → ',' ∉ l) →
      patched_get_connection p = .default := by
  constructor
  · induction segs with
    | nil => exact absurd rfl hne
    | cons s rest ih =>
      rcases hseg s (by simp) with ⟨hc, hstrip, hnil⟩
      cases rest with
      | nil =>
        simp [joinComma, parse_proxychain_url, pySplitComma_no_comma s hc, hstrip, hnil]
      | cons s2 rest2 =>
        have ihr := ih (by simp) (fun x hx => hseg x (by simp [hx]))
        simp only [joinComma, parse_proxychain_url] at ihr ⊢
        rw [pySplitComma_append _ _ hc]
        simp only [List.map_cons, List.filter_cons, hstrip]
        rw [if_pos (by simpa using hnil)]
        simp only [List.map_cons]
        congr 1
  · intro p hp
    match p with
    | none => rfl
    | some l =>
      have hnc : ',' ∉ l := hp l rfl
      by_cases hl : l = []
      · simp [patched_get_connection, hl]
      · simp [patched_get_connection, hl, hnc]

theorem C7_proxychain_order_and_fallthrough_witness :
    (["socks5://a:1".toList, "socks5://b:2".toList] ≠ ([] : List (List Char)) ∧
      ∀ s ∈ ["socks5://a:1".toList, "socks5://b:2".toList],
        ',' ∉ s ∧ pyStrip s = s ∧ s ≠ []) ∧
    (parse_proxychain_url (joinComma ["socks5://a:1".toList, "socks5://b:2".toList])).proxies
        = [proxy_from_url "socks5://a:1".toList, proxy_from_url "socks5://b:2".toList] ∧
    patched_get_connection (some "http://single-proxy:8080".toList) = .default := by
  refine ⟨⟨by decide, by decide⟩, ?_, ?_⟩
  · exact (C7_proxychain_order_and_fallthrough _ (by decide) (by decide)).1
  · exact (C7_proxychain_order_and_fallthrough ["socks5://a:1".toList, "socks5://b:2".toList]
      (by decide) (by decide)).2 _ (by intro l hl; cases hl; decide)

/-! ## Cache document (typed view) and session expiry check

The tracking pipeline reads the cache document through a typed lens: the
`"TRACKING"` section (absent key modelled as `none`) with its
`last_event_id`, `last_event_id_expiry` and `User_Agent` entries, plus
the top-level `last_event_id` / `last_event_id_expiry` keys that
`tracking()` looks up on the root document. -/

/-- Python truthiness of an optional string: `None` and `""` are falsy. -/
def pyTruthyStr : Option String → Bool
  | none => false
  | some s => s ≠ ""

/-- Python truthiness of an optional integer: `None` and `0` are falsy. -/
def pyTruthyInt : Option Int → Bool
  | none => false
  | some n => n ≠ 0

/-- The `"TRACKING"` section of the cache document.  The expiry is the
parsed value (seconds) of the `"%Y-%m-%d %H:%M:%S %Z"` string. -/
structure TrackingSection where
  last_event_id : Option String := none
  last_event_id_expiry : Option Nat := none
  user_agent : Option String := none
deriving DecidableEq, Repr

/-- The cache document as the pipeline sees it. -/
structure CacheDoc where
  TRACKING : Option TrackingSection := none
  top_last_event_id : Option String := none
  top_last_event_id_expiry : Option String := none
deriving DecidableEq, Repr

/-- Model of `save_last_event_id`: read the document, take its `"TRACKING"`
sub-dict (or a fresh one), set the token and its expiry timestamp, and
write the document back. -/
def save_last_event_id (doc : CacheDoc) (last_event_id : String)
    (last_event_id_expiry : Nat) : CacheDoc :=
  let tr := doc.TRACKING.getD {}
  { doc with TRACKING := some { tr with
      last_event_id := some last_event_id,
      last_event_id_expiry := some last_event_id_expiry } }

inductive CheckError where
  /-- Case where `cache.get("TRACKING")` returned `None` and `.get(...)` on it
  raises `AttributeError`. -/
  | attributeErrorNoTracking : CheckError
  /-- Case where `capture_last_event_id` keeps returning `None`: the
  `while not new_last_event_id` loop never terminates. -/
  | captureNeverSucceeds : CheckError
deriving DecidableEq, Repr

/-- Result of the expiry check, instrumented with whether the
Bootstrapper (`capture_last_event_id`) was invoked. -/
structure CheckResult where
  token : String
  doc : CacheDoc
  invoked : Bool
deriving DecidableEq, Repr

/-- Model of `check_last_event_id_expiry`: load token and expiry; if the token is
falsy, the expiry is falsy, or `now >= expiry + hours`, capture a new
token (looping while the capture returns `None` — modelled by the
deterministic single capture outcome `capture`), save it with expiry
timestamp `now`, and return it; otherwise return the cached token with
the document untouched and the Bootstrapper not invoked. -/
def check_last_event_id_expiry (doc : CacheDoc) (now : Nat) (hours : Nat)
    (capture : Option String) : Except CheckError CheckResult :=
  match doc.TRACKING with
  | none => .error .attributeErrorNoTracking
  | some tr =>
    let last_event_id := tr.last_event_id
    let last_event_id_expiry := tr.last_event_id_expiry
    if !pyTruthyStr last_event_id
        || (match last_event_id_expiry with
            | none => true
            | some e => now ≥ e + hours * 3600) then
      match capture with
      | none => .error .captureNeverSucceeds
      | some tok => .ok ⟨tok, save_last_event_id doc tok now, true⟩
    else
      .ok ⟨last_event_id.getD "", doc, false⟩

/-! ## C5 -/

/-- C5: when the cached token is missing (falsy) or its expiry timestamp
is in the past (`now ≥ expiry + hours·3600`) or missing, the expiry check
invokes the Bootstrapper capture and saves the new token (with expiry
stamp `now`); when the expiry is still within the valid window (and the
token is present), it returns the cached token unchanged without invoking
the Bootstrapper. -/
theorem C5_expiry_check (doc : CacheDoc) (tr : TrackingSection)
    (now hours : Nat) (capture : Option String) (tok : String)
    (htr : doc.TRACKING = some tr) :
    ((pyTruthyStr tr.last_event_id = false ∨
        tr.last_event_id_expiry = none ∨
        (∃ e, tr.last_event_id_expiry = some e ∧ now ≥ e + hours * 3600)) →
      capture = some tok →
      check_last_event_id_expiry doc now hours capture =
        .ok ⟨tok, save_last_event_id doc tok now, true⟩) ∧
    (∀ id e, tr.last_event_id = some id → id ≠ "" →
      tr.last_event_id_expiry = some e → now < e + hours * 3600 →
      check_last_event_id_expiry doc now hours capture = .ok ⟨id, doc, false⟩) := by
  constructor
  · intro hcond hcap
    subst hcap
    have hguard : (!pyTruthyStr tr.last_event_id
        || (match tr.last_event_id_expiry with
            | none => true
            | some e => now ≥ e + hours * 3600 : Bool)) = true := by
      rcases hcond with h | h | ⟨e, he, hle⟩
      · simp [h]
      · simp [h]
      · rw [he]
        simp [hle]
    simp [check_last_event_id_expiry, htr, hguard]
  · intro id e hid hne he hlt
    simp only [check_last_event_id_expiry, htr]
    rw [hid, he]
    simp [pyTruthyStr, hne, Nat.not_le.mpr hlt]

theorem C5_expiry_check_witness :
    ((⟨some ⟨some "old", some 100, none⟩, none, none⟩ : CacheDoc).TRACKING
        = some ⟨some "old", some 100, none⟩) ∧
    check_last_event_id_expiry ⟨some ⟨some "old", some 100, none⟩, none, none⟩ 4000 1 (some "fresh")
      = .ok ⟨"fresh",
          save_last_event_id ⟨some ⟨some "old", some 100, none⟩, none, none⟩ "fresh" 4000, true⟩ ∧
    check_last_event_id_expiry ⟨some ⟨some "old", some 100, none⟩, none, none⟩ 3000 1 (some "fresh")
      = .ok ⟨"old", ⟨some ⟨some "old", some 100, none⟩, none, none⟩, false⟩ := by
  refine ⟨rfl, ?_, ?_⟩
  · exact (C5_expiry_check ⟨some ⟨some "old", some 100, none⟩, none, none⟩
      ⟨some "old", some 100, none⟩ 4000 1 (some "fresh") "fresh" rfl).1
      (Or.inr (Or.inr ⟨100, rfl, by decide⟩)) rfl
  · exact (C5_expiry_check ⟨some ⟨some "old", some 100, none⟩, none, none⟩
      ⟨some "old", some 100, none⟩ 3000 1 (some "fresh") "fresh" rfl).2
      "old" 100 rfl (by decide) rfl (by decide)

/-! ## Reference tables (externally supplied, read-only) -/

/-- One `courier_cache` record (the fields the core reads). -/
structure CourierRec where
  key : Int
  name : String
  country : Option Int := none
  email : Option String := none
  tel : Option String := none
  url : Option String := none
deriving DecidableEq, Repr

/-- One `country_cache` record. -/
structure CountryRec where
  numberKey : Int
  mnemonic : String
  name : String
deriving DecidableEq, Repr

/-- One `status_cache` record. -/
structure StatusRec where
  key : Int
  name : String
  iconBgColor : String
  tips : String
deriving DecidableEq, Repr

/-! ## Request mapping -/

/-- Model of `remove_non_alphanumeric`: drop every character outside
`[a-zA-Z0-9]`. -/
def remove_non_alphanumeric (text : String) : String :=
  ⟨text.toList.filter Char.isAlphanum⟩

/-- Model of `map_courier_slug_to_code`: a falsy slug resolves to 0; otherwise the
first courier whose name matches case-insensitively (`casefold`, modelled
by `toLower`) gives its key; no match gives 0. -/
def map_courier_slug_to_code (couriers : List CourierRec) (courier_slug : Option String) : Int :=
  match courier_slug with
  | none => 0
  | some s =>
    if s = "" then 0
    else
      match couriers.find? (fun c => c.name.toLower == s.toLower) with
      | some c => c.key
      | none => 0

/-- A raw input item: the facade passes `{"num": ..., "slug": ...}`
dicts; a missing key reads as `None`. -/
structure TrackingItem where
  num : Option String := none
  slug : Option String := none
deriving DecidableEq, Repr

/-- One remapped item `{"num": ..., "fc": ..., "sc": 0}`. -/
structure RemappedItem where
  num : String
  fc : Int
  sc : Int
deriving DecidableEq, Repr

inductive RemapError where
  /-- Case where `re.sub` applied to `None` (item without a `"num"`) raises
  `TypeError`. -/
  | typeErrorNumMissing : RemapError
deriving DecidableEq, Repr

/-- Model of `remap_tracking_data`: remap each item in order; the first item with
no number raises. -/
def remap_tracking_data (couriers : List CourierRec) :
    List TrackingItem → Except RemapError (List RemappedItem)
  | [] => .ok []
  | t :: ts =>
    match t.num with
    | none => .error .typeErrorNumMissing
    | some n =>
      match remap_tracking_data couriers ts with
      | .error e => .error e
      | .ok rest =>
        .ok (⟨remove_non_alphanumeric n, map_courier_slug_to_code couriers t.slug, 0⟩ :: rest)

/-! ## Response decoding -/

structure CountryInfo where
  mnemonic : String
  name : String
  code : Int
deriving DecidableEq, Repr

/-- Model of `parse_country_info`: numeric lookup in the country table
(`str(numberKey) == str(code)`; a `None` code never matches). -/
def parse_country_info (countries : List CountryRec) (code : Option Int) : Option CountryInfo :=
  match code with
  | none => none
  | some c =>
    (countries.find? (fun r => r.numberKey == c)).map
      (fun r => ⟨r.mnemonic, r.name, r.numberKey⟩)

structure ContactInfo where
  email : Option String
  telephone : Option String
  website : Option String
deriving DecidableEq, Repr

structure CourierInfo where
  code : Int
  country : Option CountryInfo
  contact : ContactInfo
  name : String
  icon : String
deriving DecidableEq, Repr

/-- Model of `parse_courier_info`: numeric lookup in the courier table, with the
nested country lookup, contact info, and the derived logo URL. -/
def parse_courier_info (couriers : List CourierRec) (countries : List CountryRec)
    (code : Option Int) : Option CourierInfo :=
  match code with
  | none => none
  | some c =>
    (couriers.find? (fun r => r.key == c)).map
      (fun r =>
        ⟨r.key, parse_country_info countries r.country, ⟨r.email, r.tel, r.url⟩, r.name,
          "http://res.17track.net/asset/carrier/logo/120x120/" ++ toString c ++ ".png"⟩)

structure StatusInfo where
  code : Int
  name : String
  color : String
  tips : String
deriving DecidableEq, Repr

/-- Model of `parse_status_info`: numeric lookup in the status table. -/
def parse_status_info (statuses : List StatusRec) (code : Int) : Option StatusInfo :=
  (statuses.find? (fun r => r.key == code)).map
    (fun r => ⟨r.key, r.name, r.iconBgColor, r.tips⟩)

/-- One raw tracking event as received (compact keys a/b/c/d/z). -/
structure RawStatus where
  a : Option Int := none
  b : Option Int := none
  c : Option String := none
  d : Option String := none
  z : Option String := none
deriving DecidableEq, Repr

/-- One decoded tracking event. -/
structure StatusOut where
  time : Option Int
  country : Option Int
  location1 : Option String
  location2 : Option String
  status : Option String
deriving DecidableEq, Repr

/-- Decode one event, promoting `location2` to `location1` when
`location1` is falsy and `location2` truthy (then `location2 := ""`). -/
def parse_one_tracking_status (r : RawStatus) : StatusOut :=
  if pyTruthyStr r.d && !pyTruthyStr r.c then ⟨r.a, r.b, r.d, some "", r.z⟩
  else ⟨r.a, r.b, r.c, r.d, r.z⟩

/-- Model of `parse_tracking_status`: skip falsy entries (`None`/`{}`, modelled as
`none`), decode the rest in order. -/
def parse_tracking_status (tracking_statuses : List (Option RawStatus)) : List StatusOut :=
  (tracking_statuses.filterMap id).map parse_one_tracking_status

/-- The value of the `shorten_status` field: the Python value is a
record, `None` (lookup miss, also used by the placeholder), or `{}`
(status code absent). -/
inductive StatusField where
  | pyNone : StatusField
  | pyEmpty : StatusField
  | found : StatusInfo → StatusField
deriving DecidableEq, Repr

/-- The value of the `lastest_status` field: a single event, `{}`
(undecodable), or `None` (placeholder). -/
inductive LatestField where
  | pyNone : LatestField
  | pyEmpty : LatestField
  | one : StatusOut → LatestField
deriving DecidableEq, Repr

/-- The `zex` extension sub-dict (truthiness of its markers is what the
code consumes). -/
structure ZexInfo where
  pickup : Option Bool := none
  ret : Option Bool := none
deriving DecidableEq, Repr

/-- The compact `track` payload of one response item. -/
structure TrackInfo where
  b : Option Int := none
  c : Option Int := none
  e : Option Int := none
  f : Option Int := none
  w1 : Option Int := none
  w2 : Option Int := none
  z1 : Option (List (Option RawStatus)) := none
  z0 : Option RawStatus := none
  zex : Option ZexInfo := none
deriving DecidableEq, Repr

/-- The decoded per-number result record. -/
structure TrackResult where
  tracking : Option String
  delay : Option Int
  country1 : Option CountryInfo
  country2 : Option CountryInfo
  shorten_status : StatusField
  transit_time : Option Int
  courier1 : Option CourierInfo
  courier2 : Option CourierInfo
  all_status : Option (List StatusOut)
  lastest_status : LatestField
  picked_up : Option Bool
  returned : Option Bool
  retry_delay : Bool
deriving DecidableEq, Repr

/-- The null-valued placeholder emitted for deferred / payload-less
numbers: only the tracking number and `retry_delay = True` populated. -/
def delayPlaceholder (tracking_number : Option String) : TrackResult :=
  ⟨tracking_number, none, none, none, .pyNone, none, none, none, none, .pyNone,
    none, none, true⟩

inductive DecodeError where
  /-- Case where `tracking_info.get("f")` returned `None` and `None < 0` raises
  `TypeError`. -/
  | typeErrorTransitMissing : DecodeError
  /-- Case where `tracking_info.get("z1")` returned `None` and iterating `None`
  raises `TypeError`. -/
  | typeErrorStatusListMissing : DecodeError
deriving DecidableEq, Repr

/-- Decode one present (non-deferred, nonempty) `track` payload, in
source order: countries, status, transit time (raises on a missing `f`),
couriers, event list (raises on a missing `z1`), latest event, extension
markers. -/
def decodeItem (countries : List CountryRec) (couriers : List CourierRec)
    (statuses : List StatusRec) (tracking_number : Option String)
    (tracking_delay : Option Int) (info : TrackInfo) : Except DecodeError TrackResult :=
  let country1 := if pyTruthyInt info.b then parse_country_info countries info.b else none
  let country2 := if pyTruthyInt info.c then parse_country_info countries info.c else none
  let shorten_status : StatusField :=
    match info.e with
    | some e =>
      match parse_status_info statuses e with
      | some s => .found s
      | none => .pyNone
    | none => .pyEmpty
  match info.f with
  | none => .error .typeErrorTransitMissing
  | some f =>
    let transit_time : Option Int := if f < 0 then none else some f
    let courier1 := if pyTruthyInt info.w1 then parse_courier_info couriers countries info.w1 else none
    let courier2 := if pyTruthyInt info.w2 then parse_courier_info couriers countries info.w2 else none
    match info.z1 with
    | none => .error .typeErrorStatusListMissing
    | some z1 =>
      let all_status := parse_tracking_status z1
      let lastest_status : LatestField :=
        match parse_tracking_status [info.z0] with
        | [s] => .one s
        | _ => .pyEmpty
      let picked_up := match info.zex with
        | none => false
        | some z => z.pickup == some true
      let returned := match info.zex with
        | none => false
        | some z => z.ret == some true
      .ok ⟨tracking_number, tracking_delay, country1, country2, shorten_status,
        transit_time, courier1, courier2, some all_status, lastest_status,
        some picked_up, some returned, false⟩

/-- One item of the response's `dat` array. -/
structure RespItem where
  no : Option String := none
  delay : Option Int := none
  track : Option TrackInfo := none
deriving DecidableEq, Repr

/-- The backend response body (`msg` and `dat`; a missing `dat` defaults
to `{}`, which iterates as empty). -/
structure Response where
  msg : Option String := none
  dat : Option (List RespItem) := none
deriving DecidableEq, Repr

/-- Model of `all_trackings_results`: a Python dict keyed by the (possibly `None`)
tracking number, insertion-ordered. -/
def ResultMap := List (Option String × TrackResult)
deriving DecidableEq, Repr

/-- Python dict assignment `m[k] = v`: replace the value in place if the
key is present (dict keys are unique), else append at the end. -/
def insertKV : ResultMap → Option String → TrackResult → ResultMap
  | [], k, v => [(k, v)]
  | p :: t, k, v => if p.1 = k then (k, v) :: t else p :: insertKV t k v

/-- The decode loop over `response_data["dat"]`.  A `delay == 1` item
runs the placeholder assignment once per item of `data["data"]` (the
remapped submitted batch) — always under the same key, the deferred
item's number.  A falsy payload emits one placeholder.  A present payload
is decoded (a decode `TypeError` aborts the whole loop). -/
def processDat (countries : List CountryRec) (couriers : List CourierRec)
    (statuses : List StatusRec) (remapped : List RemappedItem) :
    List RespItem → ResultMap → Except DecodeError ResultMap
  | [], acc => .ok acc
  | item :: rest, acc =>
    let tracking_number := item.no
    if item.delay = some 1 then
      let acc1 := remapped.foldl
        (fun m _ => insertKV m tracking_number (delayPlaceholder tracking_number)) acc
      processDat countries couriers statuses remapped rest acc1
    else
      match item.track with
      | none =>
        processDat countries couriers statuses remapped rest
          (insertKV acc tracking_number (delayPlaceholder tracking_number))
      | some info =>
        match decodeItem countries couriers statuses tracking_number item.delay info with
        | .error e => .error e
        | .ok r =>
          processDat countries couriers statuses remapped rest
            (insertKV acc tracking_number r)

/-! ## The `tracking` entry point

The caller-visible mutable state is threaded explicitly: the cache
document (the store behind `read_cache_json` / `write_cache_json`) and a
heap of Python header dictionaries, addressed by index — `tracking`
receives the address of the dict the caller passed, so in-place mutation
and aliasing are observable.  The HTTP POST itself is external: its
response body is a parameter (the `proxies` argument only selects the
transport and the timeout, which do not affect the decoded value). -/

/-- A Python header dict (string keys and values, insertion-ordered). -/
def Headers := List (String × String)
deriving DecidableEq, Repr

/-- Dict lookup. -/
def getVal : Headers → String → Option String
  | [], _ => none
  | p :: t, k => if p.1 = k then some p.2 else getVal t k

/-- Dict assignment `h[k] = v`: replace the value in place if the key is
present (dict keys are unique), else append at the end. -/
def setKey (k v : String) : Headers → Headers
  | [] => [(k, v)]
  | p :: t => if p.1 = k then (k, v) :: t else p :: setKey k v t

/-- Write `k = v` into the dict at heap address `i`. -/
def heapSet (heap : List Headers) (i : Nat) (k v : String) : List Headers :=
  heap.set i (setKey k v (heap.getD i []))

/-- The mutable default `headers={}` dict is created once when the
function is defined and lives at a fixed heap address, shared by every
call that omits the argument. -/
def defaultHeadersAddr : Nat := 0

inductive TrackError where
  | invalidCount : TrackError
  | session : CheckError → TrackError
  /-- Case where `cache_data["TRACKING"]` raises `KeyError`. -/
  | keyErrorTracking : TrackError
  /-- Case where `cache_data["TRACKING"]["User_Agent"]` raises `KeyError`. -/
  | keyErrorUserAgent : TrackError
  | remapErr : RemapError → TrackError
  | numNon : Option String → TrackError
  | backend : Option String → TrackError
  | decodeErr : DecodeError → TrackError
deriving DecidableEq, Repr

/-- Mutable state a `tracking` call touches. -/
structure TrackState where
  cache : CacheDoc
  heap : List Headers
deriving DecidableEq, Repr

/-- Lines 370–373: read the cache, look up `last_event_id` /
`last_event_id_expiry` on the *root* document (not under `"TRACKING"`),
and if either is falsy run `check_last_event_id_expiry` (default
`hours=1`), which may rewrite the cache document. -/
def ensureSession (doc : CacheDoc) (now : Nat) (capture : Option String) :
    Except CheckError (String × CacheDoc) :=
  let last_event_id := doc.top_last_event_id
  let last_event_id_expiry := doc.top_last_event_id_expiry
  if !pyTruthyStr last_event_id || !pyTruthyStr last_event_id_expiry then
    match check_last_event_id_expiry doc now 1 capture with
    | .error e => .error e
    | .ok r => .ok (r.token, r.doc)
  else
    .ok (last_event_id.getD "", doc)

/-- Model of `tracking(trackings, headers, proxies)`: batch-size guard, session
check, in-place header writes (Referer, then the cached User-Agent —
looked up on the document read *before* the session check — then the
session token), request remapping, and response decoding. -/
def tracking (countries : List CountryRec) (couriers : List CourierRec)
    (statuses : List StatusRec) (st : TrackState) (hAddr : Nat)
    (trackings : List TrackingItem) (now : Nat) (capture : Option String)
    (response : Response) : Except TrackError ResultMap × TrackState :=
  if trackings.length = 0 ∨ trackings.length > 40 then
    (.error .invalidCount, st)
  else
    let doc := st.cache
    match ensureSession doc now capture with
    | .error e => (.error (.session e), st)
    | .ok (last_event_id, doc1) =>
      let heap1 := heapSet st.heap hAddr "Referer" "https://m.17track.net/"
      match doc.TRACKING with
      | none => (.error .keyErrorTracking, ⟨doc1, heap1⟩)
      | some tr =>
        match tr.user_agent with
        | none => (.error .keyErrorUserAgent, ⟨doc1, heap1⟩)
        | some ua =>
          let heap2 := heapSet heap1 hAddr "User-Agent" ua
          let heap3 := heapSet heap2 hAddr "Last-Event-ID" last_event_id
          match remap_tracking_data couriers trackings with
          | .error e => (.error (.remapErr e), ⟨doc1, heap3⟩)
          | .ok remapped =>
            if response.msg = some "Ok" then
              match processDat countries couriers statuses remapped
                  (response.dat.getD []) [] with
              | .ok m => (.ok m, ⟨doc1, heap3⟩)
              | .error e => (.error (.decodeErr e), ⟨doc1, heap3⟩)
            else if response.msg = some "numNon" then
              (.error (.numNon response.msg), ⟨doc1, heap3⟩)
            else
              (.error (.backend response.msg), ⟨doc1, heap3⟩)

/-- A call that omits the `headers` argument: it uses the shared
module-level default dict. -/
def tracking_noheaders (countries : List CountryRec) (couriers : List CourierRec)
    (statuses : List StatusRec) (st : TrackState) (trackings : List TrackingItem)
    (now : Nat) (capture : Option String) (response : Response) :
    Except TrackError ResultMap × TrackState :=
  tracking countries couriers statuses st defaultHeadersAddr trackings now capture response

/-! ## C3 -/

theorem tracking_valid_size_never_invalidCount (countries : List CountryRec)
    (couriers : List CourierRec) (statuses : List StatusRec) (st : TrackState)
    (hAddr : Nat) (trackings : List TrackingItem) (now : Nat)
    (capture : Option String) (response : Response)
    (hno : ¬(trackings.length = 0 ∨ trackings.length > 40)) :
    (tracking countries couriers statuses st hAddr trackings now capture response).1
      ≠ .error .invalidCount := by
  simp only [tracking, if_neg hno]
  rcases hs : ensureSession st.cache now capture with e | ⟨tok, doc1⟩ <;> simp only [hs]
  · simp
  case ok =>
    rcases htr : st.cache.TRACKING with _ | tr <;> simp only [htr]
    · simp
    · rcases hua : tr.user_agent with _ | ua <;> simp only [hua]
      · simp
      · rcases hrm : remap_tracking_data couriers trackings with e | rem <;> simp only [hrm]
        · simp
        · by_cases hok : response.msg = some "Ok"
          · simp only [if_pos hok]
            rcases hp : processDat countries couriers statuses rem (response.dat.getD []) []
              with e | m <;> simp [hp]
          · simp only [if_neg hok]
            by_cases hnn : response.msg = some "numNon" <;> simp [hnn]

/-- C3: `tracking` raises the batch-size validation error if and only if
the submitted list's length is 0 or exceeds 40; for every length in
1..40 the call never fails on size alone (any failure is a different
error). -/
theorem C3_batch_size_validation_iff (countries : List CountryRec)
    (couriers : List CourierRec) (statuses : List StatusRec) (st : TrackState)
    (hAddr : Nat) (trackings : List TrackingItem) (now : Nat)
    (capture : Option String) (response : Response) :
    (tracking countries couriers statuses st hAddr trackings now capture response).1
        = .error .invalidCount ↔
      (trackings.length = 0 ∨ trackings.length > 40) := by
  constructor
  · intro hc
    by_contra hno
    exact tracking_valid_size_never_invalidCount countries couriers statuses st hAddr
      trackings now capture response hno hc
  · intro h
    simp only [tracking]
    rw [if_pos h]

/-! ## C8 -/

/-- C8: for a present payload carrying an integer transit-time value `f`,
decoding succeeds past the transit-time step and the decoded
`transit_time` is `None` when `f < 0` and exactly `f` when `f ≥ 0`
(given the event list is present, so no later step raises). -/
theorem C8_transit_time_mapping (countries : List CountryRec)
    (couriers : List CourierRec) (statuses : List StatusRec)
    (tracking_number : Option String) (tracking_delay : Option Int)
    (info : TrackInfo) (f : Int) (zs : List (Option RawStatus))
    (hf : info.f = some f) (hz : info.z1 = some zs) :
    ∃ r, decodeItem countries couriers statuses tracking_number tracking_delay info = .ok r ∧
      (f < 0 → r.transit_time = none) ∧ (0 ≤ f → r.transit_time = some f) := by
  simp only [decodeItem, hf, hz]
  refine ⟨_, rfl, ?_, ?_⟩
  · intro hneg
    simp [if_pos hneg]
  · intro hpos
    simp [if_neg (not_lt.mpr hpos)]

theorem C8_transit_time_mapping_witness :
    ({ f := some (-3), z1 := some [] } : TrackInfo).f = some (-3) ∧
    ({ f := some (-3), z1 := some [] } : TrackInfo).z1 = some [] ∧
    ∃ r, decodeItem [] [] [] (some "N") none { f := some (-3), z1 := some [] } = .ok r ∧
      ((-3 : Int) < 0 → r.transit_time = none) ∧ ((0 : Int) ≤ -3 → r.transit_time = some (-3)) :=
  ⟨rfl, rfl, C8_transit_time_mapping [] [] [] (some "N") none _ (-3) [] rfl rfl⟩

/-! ## C1 -/

lemma insertKV_nil (k : Option String) (v : TrackResult) : insertKV [] k v = [(k, v)] := rfl

lemma insertKV_single_same (k : Option String) (v v' : TrackResult) :
    insertKV [(k, v)] k v' = [(k, v')] := by
  simp [insertKV]

lemma foldl_insertKV_const_keep (k : Option String) (v : TrackResult)
    (l : List RemappedItem) :
    l.foldl (fun m _ => insertKV m k v) [(k, v)] = [(k, v)] := by
  induction l with
  | nil => rfl
  | cons x xs ih =>
    simp only [List.foldl_cons, insertKV_single_same]
    exact ih

lemma foldl_insertKV_const (k : Option String) (v : TrackResult)
    (l : List RemappedItem) (hne : l ≠ []) :
    l.foldl (fun m _ => insertKV m k v) [] = [(k, v)] := by
  cases l with
  | nil => exact absurd rfl hne
  | cons x xs =>
    simp only [List.foldl_cons, insertKV_nil]
    exact foldl_insertKV_const_keep k v xs

lemma remap_ne_nil (couriers : List CourierRec) (t : TrackingItem)
    (ts : List TrackingItem) (r : List RemappedItem)
    (h : remap_tracking_data couriers (t :: ts) = .ok r) : r ≠ [] := by
  simp only [remap_tracking_data] at h
  rcases hn : t.num with _ | n <;> rw [hn] at h
  · exact Except.noConfusion h
  · rcases hr : remap_tracking_data couriers ts with e | rest <;> rw [hr] at h
    · exact Except.noConfusion h
    · injection h with h2
      rw [← h2]
      simp

/-- C1 counterexample: a two-item batch, backend response marks one item
deferred: the returned mapping contains exactly one placeholder entry
(keyed by the deferred item's number), not one per submitted item. -/
theorem C1_delay_placeholder_counterexample :
    (tracking [] [] [] ⟨⟨some ⟨some "L", some 100, some "UA"⟩, none, none⟩, [[]]⟩ 0
        [⟨some "A1", none⟩, ⟨some "B2", none⟩] 0 none
        ⟨some "Ok", some [⟨some "A1", some 1, none⟩]⟩).1
      = .ok [(some "A1", delayPlaceholder (some "A1"))] ∧
    ([⟨some "A1", none⟩, ⟨some "B2", none⟩] : List TrackingItem).length = 2 ∧
    ([(some "A1", delayPlaceholder (some "A1"))] : ResultMap).length = 1 := by
  refine ⟨rfl, rfl, rfl⟩

/-- C1 (amended): when the backend response marks an item with the delay
flag, the placeholder assignment runs once per item of the entire
submitted batch, but every iteration writes under the same key — the
deferred item's tracking number — so the returned mapping contains
exactly one placeholder entry (for the deferred item), for every batch
size. -/
theorem C1_delay_placeholder_single_entry (countries : List CountryRec)
    (couriers : List CourierRec) (statuses : List StatusRec) (st : TrackState)
    (hAddr : Nat) (trackings : List TrackingItem) (now : Nat)
    (capture : Option String) (no : Option String) (tinfo : Option TrackInfo)
    (tok : String) (doc1 : CacheDoc) (tr : TrackingSection) (ua : String)
    (remapped : List RemappedItem)
    (h0 : trackings.length ≠ 0) (h40 : ¬ trackings.length > 40)
    (hs : ensureSession st.cache now capture = .ok (tok, doc1))
    (htr : st.cache.TRACKING = some tr)
    (hua : tr.user_agent = some ua)
    (hrm : remap_tracking_data couriers trackings = .ok remapped) :
    (tracking countries couriers statuses st hAddr trackings now capture
        ⟨some "Ok", some [⟨no, some 1, tinfo⟩]⟩).1
      = .ok [(no, delayPlaceholder no)] := by
  have hno : ¬(trackings.length = 0 ∨ trackings.length > 40) := by
    rintro (h | h)
    · exact h0 h
    · exact h40 h
  have hne : remapped ≠ [] := by
    cases trackings with
    | nil => exact absurd rfl h0
    | cons t ts => exact remap_ne_nil couriers t ts remapped hrm
  simp only [tracking, if_neg hno, hs, htr, hua, hrm]
  simp only [processDat, foldl_insertKV_const no (delayPlaceholder no) remapped hne]
  simp

theorem C1_delay_placeholder_single_entry_witness :
    (([⟨some "A1", none⟩, ⟨some "B2", none⟩] : List TrackingItem).length ≠ 0 ∧
      ¬ ([⟨some "A1", none⟩, ⟨some "B2", none⟩] : List TrackingItem).length > 40 ∧
      ensureSession ⟨some ⟨some "L", some 100, some "UA"⟩, none, none⟩ 0 none
        = .ok ("L", ⟨some ⟨some "L", some 100, some "UA"⟩, none, none⟩) ∧
      remap_tracking_data [] [⟨some "A1", none⟩, ⟨some "B2", none⟩]
        = .ok [⟨"A1", 0, 0⟩, ⟨"B2", 0, 0⟩]) ∧
    (tracking [] [] [] ⟨⟨some ⟨some "L", some 100, some "UA"⟩, none, none⟩, [[]]⟩ 3
        [⟨some "A1", none⟩, ⟨some "B2", none⟩] 0 none
        ⟨some "Ok", some [⟨some "Z9", some 1, some {}⟩]⟩).1
      = .ok [(some "Z9", delayPlaceholder (some "Z9"))] := by
  refine ⟨⟨by decide, by decide, rfl, rfl⟩, ?_⟩
  exact C1_delay_placeholder_single_entry [] [] []
    ⟨⟨some ⟨some "L", some 100, some "UA"⟩, none, none⟩, [[]]⟩ 3
    [⟨some "A1", none⟩, ⟨some "B2", none⟩] 0 none (some "Z9") (some {})
    "L" ⟨some ⟨some "L", some 100, some "UA"⟩, none, none⟩
    ⟨some "L", some 100, some "UA"⟩ "UA" [⟨"A1", 0, 0⟩, ⟨"B2", 0, 0⟩]
    (by decide) (by decide) rfl rfl rfl rfl

/-! ## C10 -/

/-- C10: a present (non-deferred, nonempty) payload that lacks the
transit-time field `f` entirely makes the decode raise `TypeError`
(comparing `None < 0`), so `tracking` fails for the whole batch instead
of producing a result for any item. -/
theorem C10_missing_transit_field_fails_batch (countries : List CountryRec)
    (couriers : List CourierRec) (statuses : List StatusRec) (st : TrackState)
    (hAddr : Nat) (trackings : List TrackingItem) (now : Nat)
    (capture : Option String) (no : Option String) (d : Option Int)
    (info : TrackInfo) (tok : String) (doc1 : CacheDoc) (tr : TrackingSection)
    (ua : String) (remapped : List RemappedItem)
    (h0 : trackings.length ≠ 0) (h40 : ¬ trackings.length > 40)
    (hs : ensureSession st.cache now capture = .ok (tok, doc1))
    (htr : st.cache.TRACKING = some tr)
    (hua : tr.user_agent = some ua)
    (hrm : remap_tracking_data couriers trackings = .ok remapped)
    (hd : d ≠ some 1) (hf : info.f = none) :
    (tracking countries couriers statuses st hAddr trackings now capture
        ⟨some "Ok", some [⟨no, d, some info⟩]⟩).1
      = .error (.decodeErr .typeErrorTransitMissing) := by
  have hno : ¬(trackings.length = 0 ∨ trackings.length > 40) := by
    rintro (h | h)
    · exact h0 h
    · exact h40 h
  simp only [tracking, if_neg hno, hs, htr, hua, hrm]
  simp only [processDat, decodeItem, hf, hd]
  simp [hd]

theorem C10_missing_transit_field_fails_batch_witness :
    (([⟨some "A1", none⟩, ⟨some "B2", none⟩] : List TrackingItem).length ≠ 0 ∧
      ¬ ([⟨some "A1", none⟩, ⟨some "B2", none⟩] : List TrackingItem).length > 40 ∧
      (some (0 : Int)) ≠ some 1 ∧
      ({ z1 := some [] } : TrackInfo).f = none) ∧
    (tracking [] [] [] ⟨⟨some ⟨some "L", some 100, some "UA"⟩, none, none⟩, [[]]⟩ 0
        [⟨some "A1", none⟩, ⟨some "B2", none⟩] 0 none
        ⟨some "Ok", some [⟨some "A1", some 0, some { z1 := some [] }⟩]⟩).1
      = .error (.decodeErr .typeErrorTransitMissing) := by
  refine ⟨⟨by decide, by decide, by decide, rfl⟩, ?_⟩
  exact C10_missing_transit_field_fails_batch [] [] []
    ⟨⟨some ⟨some "L", some 100, some "UA"⟩, none, none⟩, [[]]⟩ 0
    [⟨some "A1", none⟩, ⟨some "B2", none⟩] 0 none (some "A1") (some 0)
    { z1 := some [] } "L" ⟨some ⟨some "L", some 100, some "UA"⟩, none, none⟩
    ⟨some "L", some 100, some "UA"⟩ "UA" [⟨"A1", 0, 0⟩, ⟨"B2", 0, 0⟩]
    (by decide) (by decide) rfl rfl rfl rfl (by decide) rfl

/-! ## C9 -/

lemma getVal_setKey_self (k v : String) (h : Headers) :
    getVal (setKey k v h) k = some v := by
  induction h with
  | nil => simp [setKey, getVal]
  | cons p t ih =>
    by_cases hp : p.1 = k
    · simp [setKey, getVal, hp]
    · simp [setKey, getVal, hp, ih]

lemma getVal_setKey_ne (k v k' : String) (h : Headers) (hk : k' ≠ k) :
    getVal (setKey k v h) k' = getVal h k' := by
  have hk2 : ¬(k = k') := fun hc => hk hc.symm
  induction h with
  | nil => simp [setKey, getVal, hk2]
  | cons p t ih =>
    by_cases hp : p.1 = k
    · simp [setKey, getVal, hp, hk2]
    · simp only [setKey, if_neg hp, getVal]
      by_cases hp' : p.1 = k' <;> simp [hp', ih]

lemma getD_set_self (l : List Headers) (i : Nat) (x : Headers) (hi : i < l.length) :
    (l.set i x).getD i [] = x := by
  induction l generalizing i with
  | nil => simp at hi
  | cons a t ih =>
    cases i with
    | zero => simp
    | succ n =>
      simp only [List.set_cons_succ, List.getD_cons_succ]
      exact ih n (by simpa using hi)

lemma getD_set_ne (l : List Headers) (i j : Nat) (x : Headers) (hij : j ≠ i) :
    (l.set i x).getD j [] = l.getD j [] := by
  induction l generalizing i j with
  | nil => simp
  | cons a t ih =>
    cases i with
    | zero =>
      cases j with
      | zero => exact absurd rfl hij
      | succ m => simp
    | succ n =>
      cases j with
      | zero => simp
      | succ m =>
        simp only [List.set_cons_succ, List.getD_cons_succ]
        exact ih n m (fun hc => hij (by rw [hc]))

lemma getD_heapSet_self (heap : List Headers) (i : Nat) (k v : String)
    (hi : i < heap.length) :
    (heapSet heap i k v).getD i [] = setKey k v (heap.getD i []) :=
  getD_set_self heap i _ hi

lemma getD_heapSet_ne (heap : List Headers) (i j : Nat) (k v : String) (hij : j ≠ i) :
    (heapSet heap i k v).getD j [] = heap.getD j [] :=
  getD_set_ne heap i j _ hij

lemma length_heapSet (heap : List Headers) (i : Nat) (k v : String) :
    (heapSet heap i k v).length = heap.length := by
  simp [heapSet]

/-- The heap after a `tracking` call that reaches the header-writing
lines: the dict at the caller's address carries the three writes, applied
in source order. -/
lemma tracking_heap_after (countries : List CountryRec) (couriers : List CourierRec)
    (statuses : List StatusRec) (st : TrackState) (hAddr : Nat)
    (trackings : List TrackingItem) (now : Nat) (capture : Option String)
    (response : Response) (tok : String) (doc1 : CacheDoc) (tr : TrackingSection)
    (ua : String)
    (hno : ¬(trackings.length = 0 ∨ trackings.length > 40))
    (hs : ensureSession st.cache now capture = .ok (tok, doc1))
    (htr : st.cache.TRACKING = some tr)
    (hua : tr.user_agent = some ua) :
    (tracking countries couriers statuses st hAddr trackings now capture response).2.heap
      = heapSet (heapSet (heapSet st.heap hAddr "Referer" "https://m.17track.net/")
          hAddr "User-Agent" ua) hAddr "Last-Event-ID" tok := by
  simp only [tracking, if_neg hno, hs, htr, hua]
  rcases hrm : remap_tracking_data couriers trackings with e | rem <;> simp only [hrm]
  by_cases hok : response.msg = some "Ok"
  · simp only [if_pos hok]
    rcases hp : processDat countries couriers statuses rem (response.dat.getD []) []
      with e | m <;> simp [hp]
  · simp only [if_neg hok]
    by_cases hnn : response.msg = some "numNon" <;> simp [hnn]

/-- C9 counterexample to "after every call": a call that fails the
batch-size validation raises before the header-writing lines, so the
caller's dictionary is left untouched (no Referer entry). -/
theorem C9_headers_counterexample :
    (tracking [] [] [] ⟨⟨none, none, none⟩, [[]]⟩ 0 [] 0 none ⟨none, none⟩).1
      = .error .invalidCount ∧
    (tracking [] [] [] ⟨⟨none, none, none⟩, [[]]⟩ 0 [] 0 none ⟨none, none⟩).2.heap
      = [[]] ∧
    getVal (([[]] : List Headers).getD 0 []) "Referer" = none := by
  exact ⟨rfl, rfl, rfl⟩

/-- C9 (amended): every call that passes the batch-size validation and
resolves the session token and the cached User-Agent writes the Referer,
User-Agent and Last-Event-ID entries in place into the very dictionary
object the caller passed — the dict at the caller's heap address is
updated (other keys preserved, no other heap object touched, no copy),
even when the call later fails — and a call that omits `headers` operates
on the module-level default dict at a fixed shared address. -/
theorem C9_headers_mutated_in_place (countries : List CountryRec)
    (couriers : List CourierRec) (statuses : List StatusRec) (st : TrackState)
    (hAddr : Nat) (trackings : List TrackingItem) (now : Nat)
    (capture : Option String) (response : Response) (tok : String)
    (doc1 : CacheDoc) (tr : TrackingSection) (ua : String)
    (h0 : trackings.length ≠ 0) (h40 : ¬ trackings.length > 40)
    (hs : ensureSession st.cache now capture = .ok (tok, doc1))
    (htr : st.cache.TRACKING = some tr)
    (hua : tr.user_agent = some ua)
    (hi : hAddr < st.heap.length) :
    getVal (((tracking countries couriers statuses st hAddr trackings now capture
        response).2.heap).getD hAddr []) "Referer" = some "https://m.17track.net/" ∧
    getVal (((tracking countries couriers statuses st hAddr trackings now capture
        response).2.heap).getD hAddr []) "User-Agent" = some ua ∧
    getVal (((tracking countries couriers statuses st hAddr trackings now capture
        response).2.heap).getD hAddr []) "Last-Event-ID" = some tok ∧
    (∀ k, k ≠ "Referer" → k ≠ "User-Agent" → k ≠ "Last-Event-ID" →
      getVal (((tracking countries couriers statuses st hAddr trackings now capture
          response).2.heap).getD hAddr []) k = getVal (st.heap.getD hAddr []) k) ∧
    (∀ j, j ≠ hAddr →
      ((tracking countries couriers statuses st hAddr trackings now capture
          response).2.heap).getD j [] = st.heap.getD j []) ∧
    tracking_noheaders countries couriers statuses st trackings now capture response
      = tracking countries couriers statuses st defaultHeadersAddr trackings now capture
          response := by
  have hno : ¬(trackings.length = 0 ∨ trackings.length > 40) := by
    rintro (h | h)
    · exact h0 h
    · exact h40 h
  have hh := tracking_heap_after countries couriers statuses st hAddr trackings now
    capture response tok doc1 tr ua hno hs htr hua
  have hi1 : hAddr < (heapSet st.heap hAddr "Referer" "https://m.17track.net/").length := by
    rw [length_heapSet]; exact hi
  have hi2 : hAddr < (heapSet (heapSet st.heap hAddr "Referer" "https://m.17track.net/")
      hAddr "User-Agent" ua).length := by
    rw [length_heapSet]; exact hi1
  have hcell : ((tracking countries couriers statuses st hAddr trackings now capture
      response).2.heap).getD hAddr []
      = setKey "Last-Event-ID" tok (setKey "User-Agent" ua
          (setKey "Referer" "https://m.17track.net/" (st.heap.getD hAddr []))) := by
    rw [hh, getD_heapSet_self _ _ _ _ hi2, getD_heapSet_self _ _ _ _ hi1,
      getD_heapSet_self _ _ _ _ hi]
  refine ⟨?_, ?_, ?_, ?_, ?_, rfl⟩
  · rw [hcell, getVal_setKey_ne _ _ _ _ (by decide), getVal_setKey_ne _ _ _ _ (by decide),
      getVal_setKey_self]
  · rw [hcell, getVal_setKey_ne _ _ _ _ (by decide), getVal_setKey_self]
  · rw [hcell, getVal_setKey_self]
  · intro k hk1 hk2 hk3
    rw [hcell, getVal_setKey_ne _ _ _ _ hk3, getVal_setKey_ne _ _ _ _ hk2,
      getVal_setKey_ne _ _ _ _ hk1]
  · intro j hj
    rw [hh, getD_heapSet_ne _ _ _ _ _ hj, getD_heapSet_ne _ _ _ _ _ hj,
      getD_heapSet_ne _ _ _ _ _ hj]

theorem C9_headers_mutated_in_place_witness :
    (([⟨some "A1", none⟩] : List TrackingItem).length ≠ 0 ∧
      ¬ ([⟨some "A1", none⟩] : List TrackingItem).length > 40 ∧
      (0 : Nat) < ([[("Accept", "a")]] : List Headers).length) ∧
    getVal ((((tracking [] [] [] ⟨⟨some ⟨some "L", some 100, some "UA"⟩, none, none⟩,
        [[("Accept", "a")]]⟩ 0 [⟨some "A1", none⟩] 0 none ⟨none, none⟩).2.heap).getD 0 []))
        "Referer" = some "https://m.17track.net/" ∧
    getVal ((((tracking [] [] [] ⟨⟨some ⟨some "L", some 100, some "UA"⟩, none, none⟩,
        [[("Accept", "a")]]⟩ 0 [⟨some "A1", none⟩] 0 none ⟨none, none⟩).2.heap).getD 0 []))
        "Accept" = getVal (([[("Accept", "a")]] : List Headers).getD 0 []) "Accept" := by
  have h := C9_headers_mutated_in_place [] [] []
    ⟨⟨some ⟨some "L", some 100, some "UA"⟩, none, none⟩, [[("Accept", "a")]]⟩ 0
    [⟨some "A1", none⟩] 0 none ⟨none, none⟩ "L"
    ⟨some ⟨some "L", some 100, some "UA"⟩, none, none⟩
    ⟨some "L", some 100, some "UA"⟩ "UA"
    (by decide) (by decide) rfl rfl rfl (by decide)
  exact ⟨⟨by decide, by decide, by decide⟩, h.1,
    h.2.2.2.1 "Accept" (by decide) (by decide) (by decide)⟩
